import Mathlib

/-!
Verification of the lead-filter API (`src/main.py`) against its
natural-language specification.

The Python service is a single decision pipeline (`is_genuine_lead`)
plus a state-name normalizer (`normalize_state`) over a fixed table of
U.S. states (`US_STATE_MAP`).  We embed those shallowly:

* the remote IP-reputation lookup is modelled by a `LookupOutcome`
  value passed to the pipeline (timeout / request exception / a parsed
  JSON body); "no lookup is performed" is expressed as the verdict
  being independent of that argument;
* the untyped JSON body is modelled by `IpqsData`, every consumed
  field optional, mirroring the Python `dict.get` calls;
* detail payloads are association lists of `DVal` (a JSON-ish value).
-/

namespace LeadFilter

/-- The parsed JSON body returned by the IPQualityScore lookup.
Every field is optional: the service response is untyped and the code
reads each field with `dict.get`. -/
structure IpqsData where
  success : Option Bool
  message : Option String
  proxy : Option Bool
  vpn : Option Bool
  tor : Option Bool
  country_code : Option String
  region : Option String
  fraud_score : Option Int
  deriving Repr, DecidableEq

/-- A JSON-like value appearing in the `details` mapping of a verdict. -/
inductive DVal where
  | str : String → DVal
  | int : Int → DVal
  | bool : Bool → DVal
  | null : DVal
  | obj : IpqsData → DVal
  deriving Repr, DecidableEq

/-- `details` values coming from `dict.get` on an optional string. -/
def optStrD : Option String → DVal
  | none => DVal.null
  | some s => DVal.str s

/-- `details` values coming from `dict.get` on an optional boolean. -/
def optBoolD : Option Bool → DVal
  | none => DVal.null
  | some b => DVal.bool b

/-- `details` values coming from `dict.get` on an optional number. -/
def optIntD : Option Int → DVal
  | none => DVal.null
  | some n => DVal.int n

/-- The request body (`LeadDataInput` in `main.py`). -/
structure LeadDataInput where
  submitted_state : String
  time_on_page : Int
  user_agent : String
  deriving Repr, DecidableEq

/-- The response body (`LeadVerificationResponse` in `main.py`). -/
structure LeadVerificationResponse where
  is_genuine : Bool
  reason : Option String := none
  details : Option (List (String × DVal)) := none
  deriving Repr, DecidableEq

/-- Outcome of the single outbound call to the reputation service:
`requests.get` either times out, raises some other
`RequestException` (including the `raise_for_status` HTTP errors),
or delivers a parsed JSON body. -/
inductive LookupOutcome where
  | timeout
  | requestException (e : String)
  | ok (data : IpqsData)
  deriving Repr, DecidableEq

/-- Python `str.lower()` (ASCII case folding, which covers every
character appearing in the state table). -/
def pyLower (s : String) : String :=
  String.mk (s.data.map Char.toLower)

/-- Python `str.upper()` (ASCII case folding). -/
def pyUpper (s : String) : String :=
  String.mk (s.data.map Char.toUpper)

/-- Python `str.strip()`: remove leading and trailing whitespace. -/
def pyStrip (s : String) : String :=
  String.mk (((s.data.dropWhile Char.isWhitespace).reverse.dropWhile Char.isWhitespace).reverse)

/-- `US_STATE_MAP` from `main.py`: abbreviation ↦ full name. -/
def US_STATE_MAP : List (String × String) := [
  ("AL", "Alabama"), ("AK", "Alaska"), ("AZ", "Arizona"), ("AR", "Arkansas"), ("CA", "California"),
  ("CO", "Colorado"), ("CT", "Connecticut"), ("DE", "Delaware"), ("FL", "Florida"), ("GA", "Georgia"),
  ("HI", "Hawaii"), ("ID", "Idaho"), ("IL", "Illinois"), ("IN", "Indiana"), ("IA", "Iowa"),
  ("KS", "Kansas"), ("KY", "Kentucky"), ("LA", "Louisiana"), ("ME", "Maine"), ("MD", "Maryland"),
  ("MA", "Massachusetts"), ("MI", "Michigan"), ("MN", "Minnesota"), ("MS", "Mississippi"), ("MO", "Missouri"),
  ("MT", "Montana"), ("NE", "Nebraska"), ("NV", "Nevada"), ("NH", "New Hampshire"), ("NJ", "New Jersey"),
  ("NM", "New Mexico"), ("NY", "New York"), ("NC", "North Carolina"), ("ND", "North Dakota"), ("OH", "Ohio"),
  ("OK", "Oklahoma"), ("OR", "Oregon"), ("PA", "Pennsylvania"), ("RI", "Rhode Island"), ("SC", "South Carolina"),
  ("SD", "South Dakota"), ("TN", "Tennessee"), ("TX", "Texas"), ("UT", "Utah"), ("VT", "Vermont"),
  ("VA", "Virginia"), ("WA", "Washington"), ("WV", "West Virginia"), ("WI", "Wisconsin"), ("WY", "Wyoming"),
  ("DC", "District of Columbia")]

/-- `US_STATE_FULL_NAMES_LOWER` from `main.py`. -/
def US_STATE_FULL_NAMES_LOWER : List String :=
  US_STATE_MAP.map (fun p => pyLower p.2)

/-- `US_STATE_ABBREVIATIONS_LOWER` from `main.py`. -/
def US_STATE_ABBREVIATIONS_LOWER : List String :=
  US_STATE_MAP.map (fun p => pyLower p.1)

/-- `normalize_state` from `main.py`: normalize a submitted state
(name or abbreviation) to its full name, lowercase; `none` (Python
`None`) when unmatched. -/
def normalize_state (submitted_state : String) : Option String :=
  let s_lower := pyLower (pyStrip submitted_state)
  if s_lower ∈ US_STATE_FULL_NAMES_LOWER then
    some s_lower
  else if s_lower ∈ US_STATE_ABBREVIATIONS_LOWER then
    match US_STATE_MAP.lookup (pyUpper s_lower) with
    | some full_name => some (pyLower full_name)
    | none => none
  else
    none

/-- Python truthiness of `IP_QUALITY_SCORE_API_KEY`:
`main.py` treats the key as unusable when
`not IP_QUALITY_SCORE_API_KEY or IP_QUALITY_SCORE_API_KEY == "YOUR_IPQUALITYSCORE_API_KEY"`;
`os.getenv` yields `None` when unset. -/
def apiKeyConfigured : Option String → Bool
  | none => false
  | some k => !(k == "" || k == "YOUR_IPQUALITYSCORE_API_KEY")

/-- Python `str.capitalize()`: first character uppercased, the rest
lowercased. -/
def pyCapitalize (s : String) : String :=
  match s.data with
  | [] => ""
  | c :: cs => String.mk (c.toUpper :: cs.map Char.toLower)

/-- Python truthiness of `ipqs_data.get(flag)` for a boolean flag:
an absent field is `None`, hence falsy. -/
def flagTrue (o : Option Bool) : Bool := o.getD false

/-- The `detection_type` list built in the anonymization branch of
`main.py` (lines 163–166). -/
def detection_type (d : IpqsData) : List String :=
  (if flagTrue d.proxy then ["proxy"] else []) ++
  (if flagTrue d.vpn then ["vpn"] else []) ++
  (if flagTrue d.tor then ["tor"] else [])

/-- The anonymization-check guard of `main.py` line 162:
`ipqs_data.get("proxy") or ipqs_data.get("vpn") or ipqs_data.get("tor")`. -/
def anonFlagged (d : IpqsData) : Bool :=
  flagTrue d.proxy || flagTrue d.vpn || flagTrue d.tor

/-- `normalize_state(ip_state_name) if ip_state_name else None`
(`main.py` line 196): the region field may be absent or empty (both
falsy in Python). -/
def normalizeRegion : Option String → Option String
  | none => none
  | some r => if r = "" then none else normalize_state r

/-- The endpoint `is_genuine_lead` from `main.py`, as a pure function
of the configuration (`apiKey`), the client address of the connection
(`client_ip`, the empty string when it cannot be determined — Python
falsiness of `request.client.host`), the request body, and the
outcome of the (at most one) reputation lookup. -/
def is_genuine_lead (apiKey : Option String) (client_ip : String)
    (lead_data : LeadDataInput) (lookup : LookupOutcome) :
    LeadVerificationResponse :=
  if client_ip = "" then
    { is_genuine := false, reason := some "Could not determine client IP address." }
  else if lead_data.time_on_page ≤ 2 then
    { is_genuine := false,
      reason := some "Low time on page.",
      details := some [("time_on_page", DVal.int lead_data.time_on_page),
                       ("requirement", DVal.str "> 2 seconds")] }
  else if !apiKeyConfigured apiKey then
    { is_genuine := false,
      reason := some "IP validation service not configured (API key missing). Cannot verify IP-related criteria.",
      details := some [("client_ip", DVal.str client_ip)] }
  else
    match lookup with
    | LookupOutcome.timeout =>
        { is_genuine := false,
          reason := some "IP validation service timed out.",
          details := some [("client_ip", DVal.str client_ip)] }
    | LookupOutcome.requestException e =>
        { is_genuine := false,
          reason := some "IP validation service request exception.",
          details := some [("client_ip", DVal.str client_ip), ("error", DVal.str e)] }
    | LookupOutcome.ok ipqs_data =>
        if !(ipqs_data.success.getD false) then
          let error_message := ipqs_data.message.getD "Unknown error from IPQualityScore"
          { is_genuine := false,
            reason := some ("IP validation failed: " ++ error_message),
            details := some [("client_ip", DVal.str client_ip),
                             ("ipqs_response", DVal.obj ipqs_data)] }
        else if anonFlagged ipqs_data then
          { is_genuine := false,
            reason := some (pyCapitalize (String.intercalate ", " (detection_type ipqs_data)) ++ " detected."),
            details := some [("client_ip", DVal.str client_ip),
                             ("proxy", optBoolD ipqs_data.proxy),
                             ("vpn", optBoolD ipqs_data.vpn),
                             ("tor", optBoolD ipqs_data.tor),
                             ("fraud_score", optIntD ipqs_data.fraud_score)] }
        else
          let ip_country_code := ipqs_data.country_code
          let ip_state_name := ipqs_data.region
          if ip_country_code ≠ some "US" then
            { is_genuine := false,
              reason := some "IP address is not from the U.S.",
              details := some [("client_ip", DVal.str client_ip),
                               ("ip_country", optStrD ip_country_code),
                               ("ip_state", optStrD ip_state_name),
                               ("submitted_state", DVal.str lead_data.submitted_state)] }
          else
            let normalized_submitted_state := normalize_state lead_data.submitted_state
            let normalized_ip_state := normalizeRegion ip_state_name
            if normalized_submitted_state = none then
              { is_genuine := false,
                reason := some "Submitted state is not a valid U.S. state name or abbreviation.",
                details := some [("client_ip", DVal.str client_ip),
                                 ("submitted_state_raw", DVal.str lead_data.submitted_state),
                                 ("ip_state_raw", optStrD ip_state_name)] }
            else if normalized_ip_state = none ∨ normalized_ip_state ≠ normalized_submitted_state then
              { is_genuine := false,
                reason := some "IP address geolocation (state) does not match submitted U.S. state.",
                details := some [("client_ip", DVal.str client_ip),
                                 ("ip_state_normalized", optStrD normalized_ip_state),
                                 ("submitted_state_normalized", optStrD normalized_submitted_state),
                                 ("ip_state_raw", optStrD ip_state_name),
                                 ("submitted_state_raw", DVal.str lead_data.submitted_state)] }
            else
              { is_genuine := true,
                reason := some "Lead passed all verification checks.",
                details := some [("client_ip", DVal.str client_ip),
                                 ("time_on_page", DVal.int lead_data.time_on_page),
                                 ("ip_state", optStrD ip_state_name),
                                 ("submitted_state", DVal.str lead_data.submitted_state),
                                 ("fraud_score", optIntD ipqs_data.fraud_score)] }

/-! ## Helper lemmas -/

/-- Python truthiness of an optional boolean field is exactly
"present and true". -/
lemma flagTrue_iff (o : Option Bool) : flagTrue o = true ↔ o = some true := by
  cases o <;> simp [flagTrue]

/-- When no anonymization flag is set, the `detection_type` list is
empty. -/
lemma detection_type_of_not_flagged {d : IpqsData} (h : anonFlagged d = false) :
    detection_type d = [] := by
  unfold anonFlagged at h
  simp only [Bool.or_eq_false_iff] at h
  unfold detection_type
  rw [h.1.1, h.1.2, h.2]
  rfl

/-- No lowercased abbreviation of the table collides with a
lowercased full name (checked over all 51 × 51 pairs). -/
lemma abbrev_lower_notin_full_names :
    ∀ p ∈ US_STATE_MAP, pyLower p.1 ∉ US_STATE_FULL_NAMES_LOWER := by
  decide

/-- Re-uppercasing a lowercased abbreviation finds its own table
entry (the table keys are distinct uppercase abbreviations). -/
lemma lookup_abbrev_roundtrip :
    ∀ p ∈ US_STATE_MAP, US_STATE_MAP.lookup (pyUpper (pyLower p.1)) = some p.2 := by
  decide

/-- An input whose stripped lowercase form is the lowercase of a full
name in the table normalizes to that lowercase full name. -/
lemma normalize_state_of_full_name (s : String) (p : String × String)
    (hp : p ∈ US_STATE_MAP) (h : pyLower (pyStrip s) = pyLower p.2) :
    normalize_state s = some (pyLower p.2) := by
  have hmem : pyLower p.2 ∈ US_STATE_FULL_NAMES_LOWER := List.mem_map.mpr ⟨p, hp, rfl⟩
  simp only [normalize_state]
  rw [h, if_pos hmem]

/-- An input whose stripped lowercase form is the lowercase of an
abbreviation in the table normalizes to the lowercase of the
corresponding full name. -/
lemma normalize_state_of_abbrev (s : String) (p : String × String)
    (hp : p ∈ US_STATE_MAP) (h : pyLower (pyStrip s) = pyLower p.1) :
    normalize_state s = some (pyLower p.2) := by
  have hmem : pyLower p.1 ∈ US_STATE_ABBREVIATIONS_LOWER := List.mem_map.mpr ⟨p, hp, rfl⟩
  simp only [normalize_state]
  rw [h, if_neg (abbrev_lower_notin_full_names p hp), if_pos hmem,
    lookup_abbrev_roundtrip p hp]

/-- An input matching neither a lowercased full name nor a lowercased
abbreviation normalizes to the unmatched marker `none`. -/
lemma normalize_state_of_unmatched (s : String)
    (h1 : pyLower (pyStrip s) ∉ US_STATE_FULL_NAMES_LOWER)
    (h2 : pyLower (pyStrip s) ∉ US_STATE_ABBREVIATIONS_LOWER) :
    normalize_state s = none := by
  simp only [normalize_state]
  rw [if_neg h1, if_neg h2]

/-! ## Claim theorems -/

/-- Claim C1: a request with `time_on_page = 15`,
`submitted_state = "New York"`, a determinable client address, a
configured credential, and a lookup result
`{success: true, proxy/vpn/tor: false, country_code: "US",
region: "New York", fraud_score: 5}` yields `is_genuine = true` with
the passed-all-checks reason, and the details include the client
address, the time on page, both state values, and the fraud score. -/
theorem C1_end_to_end (apiKey : Option String) (client_ip user_agent : String)
    (hk : apiKeyConfigured apiKey = true) (hip : client_ip ≠ "") :
    is_genuine_lead apiKey client_ip
      { submitted_state := "New York", time_on_page := 15, user_agent := user_agent }
      (LookupOutcome.ok
        { success := some true, message := none, proxy := some false, vpn := some false,
          tor := some false, country_code := some "US", region := some "New York",
          fraud_score := some 5 }) =
      { is_genuine := true,
        reason := some "Lead passed all verification checks.",
        details := some [("client_ip", DVal.str client_ip),
                         ("time_on_page", DVal.int 15),
                         ("ip_state", DVal.str "New York"),
                         ("submitted_state", DVal.str "New York"),
                         ("fraud_score", DVal.int 5)] } := by
  unfold is_genuine_lead
  rw [if_neg hip, hk]
  rfl

/-- Witness for C1 at a concrete configured key and client address. -/
theorem C1_end_to_end_witness :
    is_genuine_lead (some "test-key") "203.0.113.5"
      { submitted_state := "New York", time_on_page := 15, user_agent := "curl/7.81.0" }
      (LookupOutcome.ok
        { success := some true, message := none, proxy := some false, vpn := some false,
          tor := some false, country_code := some "US", region := some "New York",
          fraud_score := some 5 }) =
      { is_genuine := true,
        reason := some "Lead passed all verification checks.",
        details := some [("client_ip", DVal.str "203.0.113.5"),
                         ("time_on_page", DVal.int 15),
                         ("ip_state", DVal.str "New York"),
                         ("submitted_state", DVal.str "New York"),
                         ("fraud_score", DVal.int 5)] } :=
  C1_end_to_end (some "test-key") "203.0.113.5" "curl/7.81.0" (by decide) (by decide)

/-- Claim C2 as frozen is refuted at a concrete input: with an
undeterminable client address (the check that precedes the
engagement-time check) and `time_on_page = 0 ≤ 2`, the verdict is
negative but its reason is the address one, not "Low time on page.". -/
theorem C2_counterexample :
    (0 : Int) ≤ 2
    ∧ (is_genuine_lead (some "key") ""
        { submitted_state := "New York", time_on_page := 0, user_agent := "ua" }
        LookupOutcome.timeout).is_genuine = false
    ∧ (is_genuine_lead (some "key") ""
        { submitted_state := "New York", time_on_page := 0, user_agent := "ua" }
        LookupOutcome.timeout).reason ≠ some "Low time on page." := by
  decide

/-- Claim C2 (amended): for every request with a determinable client
address and `time_on_page ≤ 2`, the verdict is negative with reason
"Low time on page." and details holding the observed value and the
"> 2 seconds" requirement, regardless of all other inputs; the
verdict is the same for every lookup outcome and every credential,
so no reputation lookup is performed. -/
theorem C2_low_time_on_page (apiKey : Option String) (client_ip : String)
    (lead_data : LeadDataInput) (lookup : LookupOutcome)
    (hip : client_ip ≠ "") (ht : lead_data.time_on_page ≤ 2) :
    is_genuine_lead apiKey client_ip lead_data lookup =
      { is_genuine := false,
        reason := some "Low time on page.",
        details := some [("time_on_page", DVal.int lead_data.time_on_page),
                         ("requirement", DVal.str "> 2 seconds")] } := by
  unfold is_genuine_lead
  rw [if_neg hip, if_pos ht]

/-- Witness for C2 (amended) at a concrete request. -/
theorem C2_low_time_on_page_witness :
    is_genuine_lead (some "key") "203.0.113.5"
      { submitted_state := "New York", time_on_page := 1, user_agent := "ua" }
      LookupOutcome.timeout =
      { is_genuine := false,
        reason := some "Low time on page.",
        details := some [("time_on_page", DVal.int 1),
                         ("requirement", DVal.str "> 2 seconds")] } :=
  C2_low_time_on_page (some "key") "203.0.113.5"
    { submitted_state := "New York", time_on_page := 1, user_agent := "ua" }
    LookupOutcome.timeout (by decide) (by decide)

/-- Claim C3: for every request past the address and engagement-time
checks, when the credential is not configured — which holds exactly
when the credential is absent, empty, or the placeholder — the
verdict is negative with the not-configured reason, identically for
every lookup outcome (fail closed, no outbound lookup, never
genuine). -/
theorem C3_fail_closed (apiKey : Option String) (client_ip : String)
    (lead_data : LeadDataInput) (lookup : LookupOutcome)
    (hip : client_ip ≠ "") (ht : 2 < lead_data.time_on_page) :
    (apiKeyConfigured apiKey = false ↔
      (apiKey = none ∨ apiKey = some "" ∨ apiKey = some "YOUR_IPQUALITYSCORE_API_KEY"))
    ∧ (apiKeyConfigured apiKey = false →
      is_genuine_lead apiKey client_ip lead_data lookup =
        { is_genuine := false,
          reason := some "IP validation service not configured (API key missing). Cannot verify IP-related criteria.",
          details := some [("client_ip", DVal.str client_ip)] }) := by
  constructor
  · cases apiKey with
    | none => simp [apiKeyConfigured]
    | some k => by_cases h : k = "" <;> simp [apiKeyConfigured, h]
  · intro hk
    unfold is_genuine_lead
    rw [if_neg hip, if_neg (not_le.mpr ht), hk]
    rfl

/-- Witness for C3 at the placeholder credential. -/
theorem C3_fail_closed_witness :
    is_genuine_lead (some "YOUR_IPQUALITYSCORE_API_KEY") "203.0.113.5"
      { submitted_state := "New York", time_on_page := 15, user_agent := "ua" }
      LookupOutcome.timeout =
      { is_genuine := false,
        reason := some "IP validation service not configured (API key missing). Cannot verify IP-related criteria.",
        details := some [("client_ip", DVal.str "203.0.113.5")] } :=
  (C3_fail_closed (some "YOUR_IPQUALITYSCORE_API_KEY") "203.0.113.5"
    { submitted_state := "New York", time_on_page := 15, user_agent := "ua" }
    LookupOutcome.timeout (by decide) (by decide)).2 (by decide)

/-- Claim C4: for every request reaching the remote lookup, each of
the three failure outcomes yields a negative verdict (the function is
total, so no server error is ever propagated): timeout gives the
timed-out reason; any other transport or protocol failure gives the
request-exception reason with the raw error description in the
details; a body whose success field is not true gives
"IP validation failed: " followed by the service message (with a
default when the message is absent). -/
theorem C4_lookup_failures (apiKey : Option String) (client_ip : String)
    (lead_data : LeadDataInput)
    (hip : client_ip ≠ "") (ht : 2 < lead_data.time_on_page)
    (hk : apiKeyConfigured apiKey = true) :
    (is_genuine_lead apiKey client_ip lead_data LookupOutcome.timeout =
      { is_genuine := false,
        reason := some "IP validation service timed out.",
        details := some [("client_ip", DVal.str client_ip)] })
    ∧ (∀ e : String,
      is_genuine_lead apiKey client_ip lead_data (LookupOutcome.requestException e) =
        { is_genuine := false,
          reason := some "IP validation service request exception.",
          details := some [("client_ip", DVal.str client_ip), ("error", DVal.str e)] })
    ∧ (∀ d : IpqsData, d.success ≠ some true →
      is_genuine_lead apiKey client_ip lead_data (LookupOutcome.ok d) =
        { is_genuine := false,
          reason := some ("IP validation failed: " ++
            d.message.getD "Unknown error from IPQualityScore"),
          details := some [("client_ip", DVal.str client_ip),
                           ("ipqs_response", DVal.obj d)] }) := by
  have hsucc : ∀ d : IpqsData, d.success ≠ some true → (!(d.success.getD false)) = true := by
    intro d h
    cases hs : d.success with
    | none => rfl
    | some b => cases b with
      | false => rfl
      | true => exact absurd hs h
  refine ⟨?_, ?_, ?_⟩
  · unfold is_genuine_lead
    rw [if_neg hip, if_neg (not_le.mpr ht), hk]
    rfl
  · intro e
    unfold is_genuine_lead
    rw [if_neg hip, if_neg (not_le.mpr ht), hk]
    rfl
  · intro d hd
    unfold is_genuine_lead
    rw [if_neg hip, if_neg (not_le.mpr ht), hk]
    show (if (!(d.success.getD false)) = true then _ else _) = _
    rw [if_pos (hsucc d hd)]

/-- Witness for C4: the three failure outcomes at concrete inputs. -/
theorem C4_lookup_failures_witness :
    (is_genuine_lead (some "key") "203.0.113.5"
      { submitted_state := "New York", time_on_page := 15, user_agent := "ua" }
      LookupOutcome.timeout).reason = some "IP validation service timed out."
    ∧ (is_genuine_lead (some "key") "203.0.113.5"
      { submitted_state := "New York", time_on_page := 15, user_agent := "ua" }
      (LookupOutcome.requestException "connection refused")).reason =
        some "IP validation service request exception."
    ∧ (is_genuine_lead (some "key") "203.0.113.5"
      { submitted_state := "New York", time_on_page := 15, user_agent := "ua" }
      (LookupOutcome.ok
        { success := some false, message := some "Invalid IP address.", proxy := none,
          vpn := none, tor := none, country_code := none, region := none,
          fraud_score := none })).reason =
        some "IP validation failed: Invalid IP address." := by
  obtain ⟨h1, h2, h3⟩ := C4_lookup_failures (some "key") "203.0.113.5"
    { submitted_state := "New York", time_on_page := 15, user_agent := "ua" }
    (by decide) (by decide) (by decide)
  refine ⟨by rw [h1], by rw [h2 "connection refused"], ?_⟩
  have hd := h3 ⟨some false, some "Invalid IP address.", none, none, none, none, none, none⟩
    (by decide)
  rw [hd]
  rfl

/-- Claim C5: with a successful lookup, the anonymization check fires
exactly when at least one of proxy, vpn, tor is present and true
(absent flags count as false); on failure the verdict is negative,
the reason is the comma-joined list of detected flag names with its
first letter capitalized followed by " detected.", and the details
hold each flag and the fraud score; when no flag is set, the verdict
never carries such a reason. -/
theorem C5_anonymization (apiKey : Option String) (client_ip : String)
    (lead_data : LeadDataInput) (d : IpqsData)
    (hip : client_ip ≠ "") (ht : 2 < lead_data.time_on_page)
    (hk : apiKeyConfigured apiKey = true) (hsucc : d.success = some true) :
    (anonFlagged d = true ↔ (d.proxy = some true ∨ d.vpn = some true ∨ d.tor = some true))
    ∧ (anonFlagged d = true →
      is_genuine_lead apiKey client_ip lead_data (LookupOutcome.ok d) =
        { is_genuine := false,
          reason := some (pyCapitalize (String.intercalate ", " (detection_type d)) ++ " detected."),
          details := some [("client_ip", DVal.str client_ip),
                           ("proxy", optBoolD d.proxy),
                           ("vpn", optBoolD d.vpn),
                           ("tor", optBoolD d.tor),
                           ("fraud_score", optIntD d.fraud_score)] })
    ∧ (anonFlagged d = false →
      (is_genuine_lead apiKey client_ip lead_data (LookupOutcome.ok d)).reason ≠
        some (pyCapitalize (String.intercalate ", " (detection_type d)) ++ " detected.")) := by
  refine ⟨by simp [anonFlagged, Bool.or_eq_true, flagTrue_iff, or_assoc], ?_, ?_⟩
  · intro hflag
    unfold is_genuine_lead
    rw [if_neg hip, if_neg (not_le.mpr ht), hk]
    show (if (!(d.success.getD false)) = true then _ else _) = _
    rw [hsucc]
    show (if anonFlagged d = true then _ else _) = _
    rw [if_pos hflag]
  · intro hflag
    rw [detection_type_of_not_flagged hflag]
    unfold is_genuine_lead
    rw [if_neg hip, if_neg (not_le.mpr ht), hk]
    show (LeadVerificationResponse.reason (if (!(d.success.getD false)) = true then _ else _)) ≠ _
    rw [hsucc]
    show (LeadVerificationResponse.reason (if anonFlagged d = true then _ else _)) ≠ _
    rw [hflag]
    show (LeadVerificationResponse.reason (if d.country_code ≠ some "US" then _ else _)) ≠ _
    by_cases hcc : d.country_code ≠ some "US"
    · rw [if_pos hcc]
      exact fun hcontra => absurd (Option.some.inj hcontra) (by decide)
    · rw [if_neg hcc]
      by_cases hsub : normalize_state lead_data.submitted_state = none
      · rw [if_pos hsub]
        exact fun hcontra => absurd (Option.some.inj hcontra) (by decide)
      · rw [if_neg hsub]
        by_cases hgeo : normalizeRegion d.region = none ∨
            normalizeRegion d.region ≠ normalize_state lead_data.submitted_state
        · rw [if_pos hgeo]
          exact fun hcontra => absurd (Option.some.inj hcontra) (by decide)
        · rw [if_neg hgeo]
          exact fun hcontra => absurd (Option.some.inj hcontra) (by decide)

/-- Witness for C5: proxy detected alone gives "Proxy detected.". -/
theorem C5_anonymization_witness :
    is_genuine_lead (some "key") "198.51.100.7"
      { submitted_state := "New York", time_on_page := 15, user_agent := "ua" }
      (LookupOutcome.ok
        { success := some true, message := none, proxy := some true, vpn := some false,
          tor := none, country_code := some "US", region := some "New York",
          fraud_score := some 77 }) =
      { is_genuine := false,
        reason := some "Proxy detected.",
        details := some [("client_ip", DVal.str "198.51.100.7"),
                         ("proxy", DVal.bool true),
                         ("vpn", DVal.bool false),
                         ("tor", DVal.null),
                         ("fraud_score", DVal.int 77)] } :=
  (C5_anonymization (some "key") "198.51.100.7"
    { submitted_state := "New York", time_on_page := 15, user_agent := "ua" }
    { success := some true, message := none, proxy := some true, vpn := some false,
      tor := none, country_code := some "US", region := some "New York",
      fraud_score := some 77 }
    (by decide) (by decide) (by decide) (by decide)).2.1 (by decide)

/-- Claim C6: with a successful, unflagged lookup whose country code
is not "US", the verdict is negative with the not-from-the-U.S.
reason regardless of the submitted state and the reported region,
and the details hold the observed country code, the region, and the
submitted state. -/
theorem C6_country_check (apiKey : Option String) (client_ip : String)
    (lead_data : LeadDataInput) (d : IpqsData)
    (hip : client_ip ≠ "") (ht : 2 < lead_data.time_on_page)
    (hk : apiKeyConfigured apiKey = true) (hsucc : d.success = some true)
    (hflag : anonFlagged d = false) (hcc : d.country_code ≠ some "US") :
    is_genuine_lead apiKey client_ip lead_data (LookupOutcome.ok d) =
      { is_genuine := false,
        reason := some "IP address is not from the U.S.",
        details := some [("client_ip", DVal.str client_ip),
                         ("ip_country", optStrD d.country_code),
                         ("ip_state", optStrD d.region),
                         ("submitted_state", DVal.str lead_data.submitted_state)] } := by
  unfold is_genuine_lead
  rw [if_neg hip, if_neg (not_le.mpr ht), hk]
  show (if (!(d.success.getD false)) = true then _ else _) = _
  rw [hsucc]
  show (if anonFlagged d = true then _ else _) = _
  rw [hflag]
  show (if d.country_code ≠ some "US" then _ else _) = _
  rw [if_pos hcc]

/-- Witness for C6: country code "CA" with a matching region still
fails. -/
theorem C6_country_check_witness :
    is_genuine_lead (some "key") "198.51.100.7"
      { submitted_state := "New York", time_on_page := 15, user_agent := "ua" }
      (LookupOutcome.ok
        { success := some true, message := none, proxy := some false, vpn := some false,
          tor := some false, country_code := some "CA", region := some "New York",
          fraud_score := some 3 }) =
      { is_genuine := false,
        reason := some "IP address is not from the U.S.",
        details := some [("client_ip", DVal.str "198.51.100.7"),
                         ("ip_country", DVal.str "CA"),
                         ("ip_state", DVal.str "New York"),
                         ("submitted_state", DVal.str "New York")] } :=
  C6_country_check (some "key") "198.51.100.7"
    { submitted_state := "New York", time_on_page := 15, user_agent := "ua" }
    { success := some true, message := none, proxy := some false, vpn := some false,
      tor := some false, country_code := some "CA", region := some "New York",
      fraud_score := some 3 }
    (by decide) (by decide) (by decide) (by decide) (by decide) (by decide)

/-- Claim C8: a request that reaches the submitted-state-validity
check (address present, time above threshold, key configured,
successful lookup, no flags, country "US") with an unrecognized
submitted state gets the invalid-submitted-state verdict, whatever
the reported region is — the failure is reported before the
geolocation-consistency check. -/
theorem C8_submitted_state_invalid (apiKey : Option String) (client_ip : String)
    (lead_data : LeadDataInput) (d : IpqsData)
    (hip : client_ip ≠ "") (ht : 2 < lead_data.time_on_page)
    (hk : apiKeyConfigured apiKey = true) (hsucc : d.success = some true)
    (hflag : anonFlagged d = false) (hcc : d.country_code = some "US")
    (hsub : normalize_state lead_data.submitted_state = none) :
    is_genuine_lead apiKey client_ip lead_data (LookupOutcome.ok d) =
      { is_genuine := false,
        reason := some "Submitted state is not a valid U.S. state name or abbreviation.",
        details := some [("client_ip", DVal.str client_ip),
                         ("submitted_state_raw", DVal.str lead_data.submitted_state),
                         ("ip_state_raw", optStrD d.region)] } := by
  unfold is_genuine_lead
  rw [if_neg hip, if_neg (not_le.mpr ht), hk]
  show (if (!(d.success.getD false)) = true then _ else _) = _
  rw [hsucc]
  show (if anonFlagged d = true then _ else _) = _
  rw [hflag]
  show (if d.country_code ≠ some "US" then _ else _) = _
  rw [if_neg (not_not.mpr hcc)]
  show (if normalize_state lead_data.submitted_state = none then _ else _) = _
  rw [if_pos hsub]

/-- Witness for C8: submitted state "Atlantis" with a region that
would otherwise be compared. -/
theorem C8_submitted_state_invalid_witness :
    is_genuine_lead (some "key") "198.51.100.7"
      { submitted_state := "Atlantis", time_on_page := 15, user_agent := "ua" }
      (LookupOutcome.ok
        { success := some true, message := none, proxy := some false, vpn := some false,
          tor := some false, country_code := some "US", region := some "California",
          fraud_score := some 1 }) =
      { is_genuine := false,
        reason := some "Submitted state is not a valid U.S. state name or abbreviation.",
        details := some [("client_ip", DVal.str "198.51.100.7"),
                         ("submitted_state_raw", DVal.str "Atlantis"),
                         ("ip_state_raw", DVal.str "California")] } :=
  C8_submitted_state_invalid (some "key") "198.51.100.7"
    { submitted_state := "Atlantis", time_on_page := 15, user_agent := "ua" }
    { success := some true, message := none, proxy := some false, vpn := some false,
      tor := some false, country_code := some "US", region := some "California",
      fraud_score := some 1 }
    (by decide) (by decide) (by decide) (by decide) (by decide) (by decide) (by decide)

/-- Claim C9: a request reaching the geolocation-consistency check
with a valid submitted state fails with the geolocation-mismatch
reason whenever the region is absent, unmatched, or normalizes to a
different value than the submitted state; the details hold the
normalized and raw values of both sides. -/
theorem C9_geolocation_mismatch (apiKey : Option String) (client_ip : String)
    (lead_data : LeadDataInput) (d : IpqsData)
    (hip : client_ip ≠ "") (ht : 2 < lead_data.time_on_page)
    (hk : apiKeyConfigured apiKey = true) (hsucc : d.success = some true)
    (hflag : anonFlagged d = false) (hcc : d.country_code = some "US")
    (hsub : normalize_state lead_data.submitted_state ≠ none)
    (hgeo : normalizeRegion d.region = none ∨
      normalizeRegion d.region ≠ normalize_state lead_data.submitted_state) :
    is_genuine_lead apiKey client_ip lead_data (LookupOutcome.ok d) =
      { is_genuine := false,
        reason := some "IP address geolocation (state) does not match submitted U.S. state.",
        details := some [("client_ip", DVal.str client_ip),
                         ("ip_state_normalized", optStrD (normalizeRegion d.region)),
                         ("submitted_state_normalized", optStrD (normalize_state lead_data.submitted_state)),
                         ("ip_state_raw", optStrD d.region),
                         ("submitted_state_raw", DVal.str lead_data.submitted_state)] } := by
  unfold is_genuine_lead
  rw [if_neg hip, if_neg (not_le.mpr ht), hk]
  show (if (!(d.success.getD false)) = true then _ else _) = _
  rw [hsucc]
  show (if anonFlagged d = true then _ else _) = _
  rw [hflag]
  show (if d.country_code ≠ some "US" then _ else _) = _
  rw [if_neg (not_not.mpr hcc)]
  show (if normalize_state lead_data.submitted_state = none then _ else _) = _
  rw [if_neg hsub]
  show (if (normalizeRegion d.region = none ∨
      normalizeRegion d.region ≠ normalize_state lead_data.submitted_state) then _ else _) = _
  rw [if_pos hgeo]

/-- Witness for C9: submitted "NY" against region "California". -/
theorem C9_geolocation_mismatch_witness :
    is_genuine_lead (some "key") "198.51.100.7"
      { submitted_state := "NY", time_on_page := 15, user_agent := "ua" }
      (LookupOutcome.ok
        { success := some true, message := none, proxy := some false, vpn := some false,
          tor := some false, country_code := some "US", region := some "California",
          fraud_score := some 2 }) =
      { is_genuine := false,
        reason := some "IP address geolocation (state) does not match submitted U.S. state.",
        details := some [("client_ip", DVal.str "198.51.100.7"),
                         ("ip_state_normalized", DVal.str "california"),
                         ("submitted_state_normalized", DVal.str "new york"),
                         ("ip_state_raw", DVal.str "California"),
                         ("submitted_state_raw", DVal.str "NY")] } :=
  C9_geolocation_mismatch (some "key") "198.51.100.7"
    { submitted_state := "NY", time_on_page := 15, user_agent := "ua" }
    { success := some true, message := none, proxy := some false, vpn := some false,
      tor := some false, country_code := some "US", region := some "California",
      fraud_score := some 2 }
    (by decide) (by decide) (by decide) (by decide) (by decide) (by decide) (by decide)
    (Or.inr (by decide))

/-- Claim C7: the state normalizer is total (it is a Lean function,
so it can never raise); the reference table has 51 entries (the 50
states and the District of Columbia); every input whose stripped,
lowercased form equals the lowercase of a full name or of an
abbreviation of the table normalizes to the canonical lowercase full
name; every other input yields the explicit unmatched marker
`none`. -/
theorem C7_normalize_state_total (s : String) :
    US_STATE_MAP.length = 51
    ∧ (∀ p ∈ US_STATE_MAP,
        (pyLower (pyStrip s) = pyLower p.2 ∨ pyLower (pyStrip s) = pyLower p.1) →
        normalize_state s = some (pyLower p.2))
    ∧ ((∀ p ∈ US_STATE_MAP,
        pyLower (pyStrip s) ≠ pyLower p.2 ∧ pyLower (pyStrip s) ≠ pyLower p.1) →
        normalize_state s = none) := by
  refine ⟨by decide, ?_, ?_⟩
  · rintro p hp (h | h)
    · exact normalize_state_of_full_name s p hp h
    · exact normalize_state_of_abbrev s p hp h
  · intro h
    apply normalize_state_of_unmatched
    · intro hmem
      obtain ⟨p, hp, hq⟩ := List.mem_map.mp hmem
      exact (h p hp).1 hq.symm
    · intro hmem
      obtain ⟨p, hp, hq⟩ := List.mem_map.mp hmem
      exact (h p hp).2 hq.symm

/-- Witness for C7: "ca", "CA", "California" and " california " all
normalize to "california"; "Atlantis" is unmatched. -/
theorem C7_normalize_state_total_witness :
    normalize_state "ca" = some "california"
    ∧ normalize_state "CA" = some "california"
    ∧ normalize_state "California" = some "california"
    ∧ normalize_state " california " = some "california"
    ∧ normalize_state "Atlantis" = none := by
  refine ⟨?_, ?_, ?_, ?_, ?_⟩
  · exact ((C7_normalize_state_total "ca").2.1 ("CA", "California")
      (by decide) (Or.inr (by decide))).trans (by decide)
  · exact ((C7_normalize_state_total "CA").2.1 ("CA", "California")
      (by decide) (Or.inr (by decide))).trans (by decide)
  · exact ((C7_normalize_state_total "California").2.1 ("CA", "California")
      (by decide) (Or.inl (by decide))).trans (by decide)
  · exact ((C7_normalize_state_total " california ").2.1 ("CA", "California")
      (by decide) (Or.inl (by decide))).trans (by decide)
  · exact (C7_normalize_state_total "Atlantis").2.2 (by decide)

/-- Claim C10: a positive verdict can only be produced by the final
success exit: whenever `is_genuine = true`, the reason is exactly
"Lead passed all verification checks." and the client address was
determinable, the time on page exceeded 2, the credential was
configured, the lookup returned a successful body, no
proxy/vpn/tor flag was set, the country code was "US", the
submitted state was valid, and the normalized region equals the
normalized submitted state. -/
theorem C10_genuine_only_via_success (apiKey : Option String) (client_ip : String)
    (lead_data : LeadDataInput) (lookup : LookupOutcome)
    (h : (is_genuine_lead apiKey client_ip lead_data lookup).is_genuine = true) :
    (is_genuine_lead apiKey client_ip lead_data lookup).reason =
        some "Lead passed all verification checks."
    ∧ client_ip ≠ ""
    ∧ 2 < lead_data.time_on_page
    ∧ apiKeyConfigured apiKey = true
    ∧ ∃ d : IpqsData, lookup = LookupOutcome.ok d
        ∧ d.success.getD false = true
        ∧ anonFlagged d = false
        ∧ d.country_code = some "US"
        ∧ (normalize_state lead_data.submitted_state).isSome = true
        ∧ normalizeRegion d.region = normalize_state lead_data.submitted_state := by
  cases lookup with
  | timeout =>
    simp only [is_genuine_lead] at h
    split_ifs at h
  | requestException e =>
    simp only [is_genuine_lead] at h
    split_ifs at h
  | ok d =>
    simp only [is_genuine_lead] at h ⊢
    split_ifs at h ⊢ with hip ht hk hs hfl hcc hsub hgeo
    push_neg at hgeo
    refine ⟨rfl, hip, by omega, by simpa using hk, d, rfl, by simpa using hs,
      by simpa using hfl, not_not.mp hcc, ?_, hgeo.2⟩
    exact Option.ne_none_iff_isSome.mp hsub

/-- Witness for C10 at a genuine concrete lead (abbreviated region
"CA" matching submitted "California"). -/
theorem C10_genuine_only_via_success_witness :
    (is_genuine_lead (some "key") "198.51.100.7"
      { submitted_state := "California", time_on_page := 20, user_agent := "ua" }
      (LookupOutcome.ok
        { success := some true, message := none, proxy := some false, vpn := some false,
          tor := some false, country_code := some "US", region := some "CA",
          fraud_score := some 0 })).reason = some "Lead passed all verification checks." :=
  (C10_genuine_only_via_success (some "key") "198.51.100.7"
    { submitted_state := "California", time_on_page := 20, user_agent := "ua" }
    (LookupOutcome.ok
      { success := some true, message := none, proxy := some false, vpn := some false,
        tor := some false, country_code := some "US", region := some "CA",
        fraud_score := some 0 })
    (by decide)).1

end LeadFilter
